import Mathlib

/-!
Verification of the loft-signage reservation timeline engine.

The embedding models the two core source files:
  * `src/utils/loftApi.js` — fetch / filter / transform pipeline turning raw
    calendar events into normalized Reservations;
  * `src/components/DailyCalendar.jsx` — time-of-day positioning arithmetic
    and the "now" indicator.

JavaScript dynamic values (the raw event records, whose `Resources` field may
be an object, an array, or anything else) are modelled by the inductive type
`JSVal`, with JS truthiness, `typeof`, strict string equality and property
access made explicit.  Fractional positions are modelled exactly with `ℚ`
(the source arithmetic is exact in binary floating point only for some
inputs, but every claim here is about the mathematical value of the
expression, which `ℚ` captures).  `Date` parsing is opaque: functions that
read hours/minutes off a `Date` take the hour and minute directly.
-/

namespace LoftSignage

/-- A JavaScript value, as far as the pipeline code inspects one:
`undefined`, `null`, booleans, (integer) numbers, strings, arrays and
plain objects with string-keyed fields. -/
inductive JSVal where
  | jsUndefined : JSVal
  | jsNull : JSVal
  | jsBool : Bool → JSVal
  | jsNum : Int → JSVal
  | jsStr : String → JSVal
  | jsArr : List JSVal → JSVal
  | jsObj : List (String × JSVal) → JSVal

/-- JS truthiness: `undefined`, `null`, `false`, `0` and `""` are falsy;
every array and object is truthy. -/
def truthy : JSVal → Bool
  | JSVal.jsUndefined => false
  | JSVal.jsNull => false
  | JSVal.jsBool b => b
  | JSVal.jsNum n => n != 0
  | JSVal.jsStr s => s != ""
  | JSVal.jsArr _ => true
  | JSVal.jsObj _ => true

/-- The JS `typeof` operator (on our value fragment).  Note `typeof null`
and `typeof` of an array are both `"object"`. -/
def typeofStr : JSVal → String
  | JSVal.jsUndefined => "undefined"
  | JSVal.jsNull => "object"
  | JSVal.jsBool _ => "boolean"
  | JSVal.jsNum _ => "number"
  | JSVal.jsStr _ => "string"
  | JSVal.jsArr _ => "object"
  | JSVal.jsObj _ => "object"

/-- `Array.isArray`. -/
def isArrayJS : JSVal → Bool
  | JSVal.jsArr _ => true
  | _ => false

/-- Whether the value is the JS `null` literal (for the `!== null` check). -/
def isNullJS : JSVal → Bool
  | JSVal.jsNull => true
  | _ => false

/-- First-match lookup of a key in an object's field list. -/
def lookupField : List (String × JSVal) → String → JSVal
  | [], _ => JSVal.jsUndefined
  | (k, v) :: rest, key => if k == key then v else lookupField rest key

/-- Property access `v.key`: defined on objects, `undefined` on everything
else (the code only dereferences after truthiness/shape guards, so prototype
lookups never matter here). -/
def getField (v : JSVal) (key : String) : JSVal :=
  match v with
  | JSVal.jsObj fields => lookupField fields key
  | _ => JSVal.jsUndefined

/-- JS strict equality `v === "s"` against a string literal. -/
def isStr (v : JSVal) (s : String) : Bool :=
  match v with
  | JSVal.jsStr t => t == s
  | _ => false

/-- JS `a || b`: `a` when truthy, else `b`. -/
def jsOr (a b : JSVal) : JSVal :=
  if truthy a then a else b

/-! ## loftApi.js -/

/-- The `resources.some(...)` body of `filterLoftEvents`:
`resource.name === "The Loft" && resource.status && resource.status.value === "Approved"`. -/
def resourceMatches (resource : JSVal) : Bool :=
  isStr (getField resource "name") "The Loft" &&
  truthy (getField resource "status") &&
  isStr (getField (getField resource "status") "value") "Approved"

/-- The per-event predicate inside `filterLoftEvents`: reject events with a
falsy `Resources`; coerce an array to itself and a non-null `typeof
"object"` value to a one-element list; reject any other shape; then test
whether some resource matches. -/
def eventQualifies (event : JSVal) : Bool :=
  if !truthy (getField event "Resources") then false
  else if isArrayJS (getField event "Resources") then
    (match getField event "Resources" with
     | JSVal.jsArr xs => xs
     | _ => []).any resourceMatches
  else if typeofStr (getField event "Resources") == "object" &&
          !isNullJS (getField event "Resources") then
    [getField event "Resources"].any resourceMatches
  else false

/-- `filterLoftEvents`: returns `[]` unless the input is an array, else
keeps the qualifying events in order. -/
def filterLoftEvents (events : JSVal) : List JSVal :=
  match events with
  | JSVal.jsArr evs => evs.filter eventQualifies
  | _ => []

/-- The normalized reservation record produced by
`transformEventToReservation` (field values stay raw JS values; `room` is
always assigned the literal string). -/
structure Reservation where
  id : JSVal
  title : JSVal
  startTime : JSVal
  endTime : JSVal
  organizer : JSVal
  room : String
  description : JSVal
  location : JSVal
  recurrence : JSVal

/-- `transformEventToReservation`: field-by-field copy, with
`SetupStart || StartTime` and `SetupEnd || EndTime` fallbacks, hardcoded
`room`, and `Location?.Name || "The Loft"` for the location. -/
def transformEventToReservation (event : JSVal) : Reservation :=
  { id := getField event "ID"
  , title := getField event "Name"
  , startTime := jsOr (getField event "SetupStart") (getField event "StartTime")
  , endTime := jsOr (getField event "SetupEnd") (getField event "EndTime")
  , organizer := getField event "Organizer"
  , room := "The Loft"
  , description := getField event "Description"
  , location := jsOr (getField (getField event "Location") "Name") (JSVal.jsStr "The Loft")
  , recurrence := getField event "Recurrence" }

/-- Outcome of the HTTP GET in `fetchGraceChurchEvents`: either no response
at all (network error — `fetch` rejected), or a response with a numeric
status and a body that parsed to a JS value (`none` = malformed JSON, so
`response.json()` rejected). -/
inductive FetchResult where
  | noResponse : FetchResult
  | response : Nat → Option JSVal → FetchResult

/-- `fetchGraceChurchEvents`: every failure path (network error, `!response.ok`
i.e. status outside 200–299, or a JSON parse failure) is caught and becomes
the empty array; a successful parse returns the body verbatim. -/
def fetchGraceChurchEvents (r : FetchResult) : JSVal :=
  match r with
  | FetchResult.noResponse => JSVal.jsArr []
  | FetchResult.response status body =>
    if 200 ≤ status ∧ status < 300 then
      match body with
      | some data => data
      | none => JSVal.jsArr []
    else JSVal.jsArr []

/-- `getLoftReservations`: fetch, filter, transform.  The model is a total
function — the source's own `try/catch` plus the one inside
`fetchGraceChurchEvents` mean no exception escapes to the caller. -/
def getLoftReservations (r : FetchResult) : List Reservation :=
  (filterLoftEvents (fetchGraceChurchEvents r)).map transformEventToReservation

/-! ## DailyCalendar.jsx -/

/-- `getTimePosition`: `((hour - 7) * 60 + minute) / 840`, overridden to
exactly `1` whenever `hour === 21`. -/
def getTimePosition (hour minute : ℤ) : ℚ :=
  let totalMinutes : ℤ := (hour - 7) * 60 + minute
  let totalTimeRange : ℤ := (21 - 7) * 60
  let position : ℚ := (totalMinutes : ℚ) / (totalTimeRange : ℚ)
  if hour = 21 then 1 else position

/-- `getCurrentTimePosition`: `null` (no indicator) when the current hour is
below 7 or above 21, otherwise the position of the current hour/minute.
The component renders the indicator exactly when this is not `null`. -/
def getCurrentTimePosition (hour minute : ℤ) : Option ℚ :=
  if hour < 7 ∨ 21 < hour then none
  else some (getTimePosition hour minute)

/-- An hour/minute instant as read off a parsed `Date`
(`getHours`/`getMinutes`). -/
structure ClockTime where
  hour : ℤ
  minute : ℤ

/-- `getEventPosition`: block geometry as (top, height) fractions of the
timeline height — the source formats them as percent strings, `top =
startPosition * 100`%, `height = (endPosition - startPosition) * 100`%. -/
def getEventPosition (start stop : ClockTime) : ℚ × ℚ :=
  let startPosition := getTimePosition start.hour start.minute
  let endPosition := getTimePosition stop.hour stop.minute
  (startPosition, endPosition - startPosition)

/-! ## Spec-side characterization of the filter (for the refinement claim C2) -/

/-- Spec-side matching resource, following the spec's words: its `name`
equals the string `"The Loft"` and its `status.value` equals the string
`"Approved"`. -/
def resourceMatchesSpec (r : JSVal) : Prop :=
  isStr (getField r "name") "The Loft" = true ∧
  isStr (getField (getField r "status") "value") "Approved" = true

/-- Spec-side qualification, following the spec's words: the event's
`Resources` field is an array (used as is) or a non-null object (coerced to
a one-element list), and that list contains at least one matching
resource. -/
def qualifiesSpec (e : JSVal) : Prop :=
  (∃ xs : List JSVal,
      getField e "Resources" = JSVal.jsArr xs ∧ ∃ r ∈ xs, resourceMatchesSpec r) ∨
  ((∃ fs : List (String × JSVal), getField e "Resources" = JSVal.jsObj fs) ∧
    resourceMatchesSpec (getField e "Resources"))

/-! ## Helper lemmas -/

/-- If `v.value === "Approved"` succeeds then `v` must be an object, hence
truthy — so the source's extra `resource.status &&` conjunct is redundant
information. -/
lemma status_truthy_of_value (v : JSVal)
    (h : isStr (getField v "value") "Approved" = true) : truthy v = true := by
  cases v <;> simp_all [getField, isStr, truthy]

lemma resourceMatches_iff (r : JSVal) :
    resourceMatches r = true ↔ resourceMatchesSpec r := by
  unfold resourceMatches resourceMatchesSpec
  simp only [Bool.and_eq_true]
  constructor
  · rintro ⟨⟨hn, _⟩, hv⟩
    exact ⟨hn, hv⟩
  · rintro ⟨hn, hv⟩
    exact ⟨⟨hn, status_truthy_of_value _ hv⟩, hv⟩

/-- The filter predicate specialized by the shape of `Resources`. -/
lemma eventQualifies_eq (e : JSVal) :
    eventQualifies e =
      (match getField e "Resources" with
       | JSVal.jsArr xs => xs.any resourceMatches
       | JSVal.jsObj fs => resourceMatches (JSVal.jsObj fs)
       | _ => false) := by
  unfold eventQualifies
  cases hR : getField e "Resources" <;>
    simp [truthy, isArrayJS, typeofStr, isNullJS]

lemma eventQualifies_iff (e : JSVal) :
    eventQualifies e = true ↔ qualifiesSpec e := by
  rw [eventQualifies_eq]
  unfold qualifiesSpec
  cases hR : getField e "Resources" <;>
    simp [List.any_eq_true, resourceMatches_iff]

/-- `getTimePosition` away from the hour-21 override is the plain linear
formula over 840 minutes. -/
lemma getTimePosition_eq (hour minute : ℤ) (h : hour ≠ 21) :
    getTimePosition hour minute = (((hour - 7) * 60 + minute : ℤ) : ℚ) / 840 := by
  simp only [getTimePosition, if_neg h]
  norm_num

/-- The hour-21 override is unconditional in the minute. -/
lemma getTimePosition_at_21 (minute : ℤ) : getTimePosition 21 minute = 1 := by
  simp [getTimePosition]

/-! ## Claims -/

/-- C1: `getTimePosition` returns `((hour - 7) * 60 + minute) / 840` for
every hour other than 21, returns exactly 1 at hour 21 regardless of the
minute, maps 7:00 to 0 and 14:00 to exactly 1/2, and applies no clamping at
the lower bound: hours below 7 yield negative positions. -/
theorem C1_getTimePosition_formula (hour minute : ℤ) :
    (hour ≠ 21 →
      getTimePosition hour minute = (((hour - 7) * 60 + minute : ℤ) : ℚ) / 840) ∧
    getTimePosition 21 minute = 1 ∧
    getTimePosition 7 0 = 0 ∧
    getTimePosition 14 0 = 1 / 2 ∧
    (hour < 7 → 0 ≤ minute → minute ≤ 59 → getTimePosition hour minute < 0) := by
  refine ⟨getTimePosition_eq hour minute, getTimePosition_at_21 minute,
    by norm_num [getTimePosition], by norm_num [getTimePosition], ?_⟩
  intro h1 h2 h3
  rw [getTimePosition_eq hour minute (by omega)]
  apply div_neg_of_neg_of_pos
  · exact_mod_cast (by omega : ((hour - 7) * 60 + minute : ℤ) < 0)
  · norm_num

/-- Witness for C1 at concrete inputs: hour 10 uses the plain formula and
hour 5 gives a negative position. -/
theorem C1_getTimePosition_formula_witness :
    getTimePosition 10 30 = (((10 - 7) * 60 + 30 : ℤ) : ℚ) / 840 ∧
    getTimePosition 5 30 < 0 :=
  ⟨(C1_getTimePosition_formula 10 30).1 (by decide),
   (C1_getTimePosition_formula 5 30).2.2.2.2 (by decide) (by decide) (by decide)⟩

/-- C5 counterexample: at 21:01 the code renders the indicator (the guard
`currentHour > 21` does not fire for hour 21), at position 1 — refuting the
claim that no indicator is rendered at 21:01. -/
theorem C5_counterexample : getCurrentTimePosition 21 1 = some 1 := by
  norm_num [getCurrentTimePosition, getTimePosition]

/-- C5 (amended): at 06:59 no indicator is rendered; at 07:00 an indicator
is rendered at position 0; at 21:01 the indicator is still rendered, at
position 1, because hour 21 passes the inclusive range check. -/
theorem C5_now_indicator_boundaries :
    getCurrentTimePosition 6 59 = none ∧
    getCurrentTimePosition 7 0 = some 0 ∧
    getCurrentTimePosition 21 1 = some 1 := by
  refine ⟨by norm_num [getCurrentTimePosition], ?_, ?_⟩ <;>
    norm_num [getCurrentTimePosition, getTimePosition]

/-- C6: the "now" indicator is suppressed (no position returned) exactly
when the current hour is below 7 or above 21, and inside the inclusive
range it returns the position of the current hour and minute via
`getTimePosition`. -/
theorem C6_indicator_suppression (hour minute : ℤ) :
    (getCurrentTimePosition hour minute = none ↔ hour < 7 ∨ 21 < hour) ∧
    (7 ≤ hour → hour ≤ 21 →
      getCurrentTimePosition hour minute = some (getTimePosition hour minute)) := by
  constructor
  · unfold getCurrentTimePosition
    split_ifs with h
    · simp [h]
    · simp [h]
  · intro h1 h2
    have h : ¬(hour < 7 ∨ 21 < hour) := by omega
    simp [getCurrentTimePosition, h]

/-- Witness for C6: suppressed at hour 22, rendered at 12:30. -/
theorem C6_indicator_suppression_witness :
    getCurrentTimePosition 22 0 = none ∧
    getCurrentTimePosition 12 30 = some (getTimePosition 12 30) :=
  ⟨(C6_indicator_suppression 22 0).1.mpr (Or.inr (by decide)),
   (C6_indicator_suppression 12 30).2 (by decide) (by decide)⟩

/-- C8: the rendered block geometry is `top = position(start)`,
`height = position(end) - position(start)` as fractions of the timeline
height; a 10:00–11:00 reservation yields `top = 3/14` and `height = 1/14`. -/
theorem C8_event_geometry (start stop : ClockTime) :
    getEventPosition start stop =
      (getTimePosition start.hour start.minute,
       getTimePosition stop.hour stop.minute - getTimePosition start.hour start.minute) ∧
    getEventPosition ⟨10, 0⟩ ⟨11, 0⟩ = (3 / 14, 1 / 14) := by
  refine ⟨rfl, ?_⟩
  norm_num [getEventPosition, getTimePosition]

/-- C7: within the window (hours 7–21, minutes 0–59), `getTimePosition` is
monotone with respect to lexicographic order on (hour, minute); moreover
7:00 maps to 0 and hour 21 maps to 1 for every minute. -/
theorem C7_position_monotone (h1 m1 h2 m2 : ℤ)
    (hb1 : 7 ≤ h1) (hb2 : h1 ≤ 21) (hb3 : 0 ≤ m1) (hb4 : m1 ≤ 59)
    (hb5 : 7 ≤ h2) (hb6 : h2 ≤ 21) (hb7 : 0 ≤ m2) (hb8 : m2 ≤ 59)
    (hlex : h1 < h2 ∨ (h1 = h2 ∧ m1 ≤ m2)) :
    getTimePosition h1 m1 ≤ getTimePosition h2 m2 ∧
    getTimePosition 7 0 = 0 ∧
    (∀ m : ℤ, getTimePosition 21 m = 1) := by
  refine ⟨?_, by norm_num [getTimePosition], fun m => getTimePosition_at_21 m⟩
  by_cases hq2 : h2 = 21
  · subst hq2
    rw [getTimePosition_at_21 m2]
    by_cases hq1 : h1 = 21
    · subst hq1
      rw [getTimePosition_at_21 m1]
    · rw [getTimePosition_eq h1 m1 hq1]
      rw [div_le_one (by norm_num : (0 : ℚ) < 840)]
      exact_mod_cast (by omega : ((h1 - 7) * 60 + m1 : ℤ) ≤ 840)
  · have hle : h1 ≤ h2 := by rcases hlex with h | ⟨h, _⟩ <;> omega
    have hq1 : h1 ≠ 21 := by omega
    rw [getTimePosition_eq h1 m1 hq1, getTimePosition_eq h2 m2 hq2]
    rw [div_le_div_iff_of_pos_right (by norm_num : (0 : ℚ) < 840)]
    have : ((h1 - 7) * 60 + m1 : ℤ) ≤ (h2 - 7) * 60 + m2 := by
      rcases hlex with h | ⟨h, hm⟩ <;> omega
    exact_mod_cast this

/-- Witness for C7 at concrete inputs 10:00 ≤ 12:30. -/
theorem C7_position_monotone_witness :
    getTimePosition 10 0 ≤ getTimePosition 12 30 :=
  (C7_position_monotone 10 0 12 30 (by decide) (by decide) (by decide) (by decide)
    (by decide) (by decide) (by decide) (by decide) (Or.inl (by decide))).1

/-- C2: an event passes `filterLoftEvents` if and only if it is one of the
input events and its `Resources` field is an array or a non-null object
(coerced to a one-element list) containing at least one resource named
"The Loft" with `status.value` equal to "Approved"; all other shapes are
excluded. -/
theorem C2_filter_characterization (evs : List JSVal) (e : JSVal) :
    e ∈ filterLoftEvents (JSVal.jsArr evs) ↔ e ∈ evs ∧ qualifiesSpec e := by
  simp [filterLoftEvents, List.mem_filter, eventQualifies_iff]

/-- C3: when both setup values (and the nominal start/end) are present
(truthy), the transformed reservation uses `SetupStart`/`SetupEnd` as its
times; title, organizer and description are copied verbatim and the room is
the constant "The Loft". -/
theorem C3_transform_setup_preference (e : JSVal)
    (hs : truthy (getField e "SetupStart") = true)
    (ht : truthy (getField e "SetupEnd") = true)
    (_hn1 : truthy (getField e "StartTime") = true)
    (_hn2 : truthy (getField e "EndTime") = true) :
    (transformEventToReservation e).startTime = getField e "SetupStart" ∧
    (transformEventToReservation e).endTime = getField e "SetupEnd" ∧
    (transformEventToReservation e).title = getField e "Name" ∧
    (transformEventToReservation e).organizer = getField e "Organizer" ∧
    (transformEventToReservation e).description = getField e "Description" ∧
    (transformEventToReservation e).room = "The Loft" := by
  unfold transformEventToReservation jsOr
  refine ⟨by simp [hs], by simp [ht], rfl, rfl, rfl, rfl⟩

/-- A fully populated raw event with both setup and nominal times. -/
def eFullSetup : JSVal :=
  JSVal.jsObj
    [ ("ID", JSVal.jsNum 1)
    , ("Name", JSVal.jsStr "Board Mtg")
    , ("SetupStart", JSVal.jsStr "2024-01-15T09:30:00")
    , ("SetupEnd", JSVal.jsStr "2024-01-15T11:30:00")
    , ("StartTime", JSVal.jsStr "2024-01-15T10:00:00")
    , ("EndTime", JSVal.jsStr "2024-01-15T11:00:00")
    , ("Organizer", JSVal.jsStr "Jane Doe")
    , ("Description", JSVal.jsStr "Quarterly board meeting") ]

/-- Witness for C3 on a concrete fully populated event. -/
theorem C3_transform_setup_preference_witness :
    (transformEventToReservation eFullSetup).startTime = getField eFullSetup "SetupStart" ∧
    (transformEventToReservation eFullSetup).endTime = getField eFullSetup "SetupEnd" ∧
    (transformEventToReservation eFullSetup).title = getField eFullSetup "Name" ∧
    (transformEventToReservation eFullSetup).organizer = getField eFullSetup "Organizer" ∧
    (transformEventToReservation eFullSetup).description = getField eFullSetup "Description" ∧
    (transformEventToReservation eFullSetup).room = "The Loft" :=
  C3_transform_setup_preference eFullSetup rfl rfl rfl rfl

/-- A fetch attempt that failed: no response at all, a non-2xx status, or a
body that did not parse as JSON. -/
def isFetchFailure : FetchResult → Prop
  | FetchResult.noResponse => True
  | FetchResult.response status body => ¬(200 ≤ status ∧ status < 300) ∨ body = none

/-- C4: on every fetch failure (network error, non-success HTTP status, or
malformed JSON) `getLoftReservations` returns the empty list; the model is a
total function, mirroring that the source's catch blocks let no exception
propagate to the caller. -/
theorem C4_failure_yields_empty (r : FetchResult) (h : isFetchFailure r) :
    getLoftReservations r = [] := by
  cases r with
  | noResponse => rfl
  | response status body =>
    rcases h with h | h
    · simp [getLoftReservations, fetchGraceChurchEvents, filterLoftEvents, h]
    · subst h
      by_cases hok : 200 ≤ status ∧ status < 300 <;>
        simp [getLoftReservations, fetchGraceChurchEvents, filterLoftEvents, hok]

/-- Witness for C4 on a concrete failure (network error). -/
theorem C4_failure_yields_empty_witness :
    getLoftReservations FetchResult.noResponse = [] :=
  C4_failure_yields_empty FetchResult.noResponse trivial

/-- An approved Loft event that carries no `Name` field. -/
def eNoName : JSVal :=
  JSVal.jsObj
    [ ("Resources", JSVal.jsObj
        [ ("name", JSVal.jsStr "The Loft")
        , ("status", JSVal.jsObj [("value", JSVal.jsStr "Approved")]) ]) ]

/-- C9 counterexample: a qualifying event without a `Name` flows through the
pipeline into a reservation whose title is `undefined` — no default is
substituted, so the title is not a non-empty display string. -/
theorem C9_counterexample :
    transformEventToReservation eNoName ∈
      getLoftReservations (FetchResult.response 200 (some (JSVal.jsArr [eNoName]))) ∧
    (transformEventToReservation eNoName).title = JSVal.jsUndefined := by
  constructor
  · have h : getLoftReservations (FetchResult.response 200 (some (JSVal.jsArr [eNoName])))
        = [transformEventToReservation eNoName] := rfl
    rw [h]
    exact List.mem_singleton.mpr rfl
  · rfl

/-- C9 (amended): the title of every reservation produced by the pipeline is
copied verbatim from the event's `Name` field, with no default substituted;
it is `undefined` when the event provides no name. -/
theorem C9_title_verbatim (e : JSVal) :
    (transformEventToReservation e).title = getField e "Name" := rfl

/-- C10: the setup-time fallback is decided independently per field by JS
truthiness: `startTime` is `SetupStart` when that value is truthy and
`StartTime` otherwise, `endTime` is `SetupEnd` when truthy and `EndTime`
otherwise; a falsy setup value such as the empty string counts as absent. -/
theorem C10_independent_fallback (e : JSVal) :
    (truthy (getField e "SetupStart") = true →
      (transformEventToReservation e).startTime = getField e "SetupStart") ∧
    (truthy (getField e "SetupStart") = false →
      (transformEventToReservation e).startTime = getField e "StartTime") ∧
    (truthy (getField e "SetupEnd") = true →
      (transformEventToReservation e).endTime = getField e "SetupEnd") ∧
    (truthy (getField e "SetupEnd") = false →
      (transformEventToReservation e).endTime = getField e "EndTime") ∧
    truthy (JSVal.jsStr "") = false := by
  unfold transformEventToReservation jsOr
  exact ⟨fun h => by simp [h], fun h => by simp [h],
    fun h => by simp [h], fun h => by simp [h], rfl⟩

/-- A raw event with a truthy `SetupStart` but an empty-string `SetupEnd`. -/
def eMixedSetup : JSVal :=
  JSVal.jsObj
    [ ("SetupStart", JSVal.jsStr "2024-01-15T09:30:00")
    , ("SetupEnd", JSVal.jsStr "")
    , ("StartTime", JSVal.jsStr "2024-01-15T10:00:00")
    , ("EndTime", JSVal.jsStr "2024-01-15T11:00:00") ]

/-- Witness for C10: the mixed event takes its start from `SetupStart` and
its end from the nominal `EndTime` because the empty-string `SetupEnd` is
falsy. -/
theorem C10_independent_fallback_witness :
    (transformEventToReservation eMixedSetup).startTime = getField eMixedSetup "SetupStart" ∧
    (transformEventToReservation eMixedSetup).endTime = getField eMixedSetup "EndTime" :=
  ⟨(C10_independent_fallback eMixedSetup).1 rfl,
   (C10_independent_fallback eMixedSetup).2.2.2.1 rfl⟩

end LoftSignage
